import Mathlib

/-!
Shallow embedding of `run_gemini_and_create_pr.py` (the change-publishing
automation script of this repository).  The script is a linear chain of five
external effects: create a git branch, run the `gemini` CLI on the prompt,
stage and commit, push, and POST a pull-request to the GitHub REST API.

External effects are modelled by a `World` record that fixes the outcome of
every subprocess call, the environment token, the HTTP response and the
random bytes drawn for the branch suffix.  Running the script on a `World`
produces a trace of `Event`s (prints, subprocess invocations, the HTTP
request) and a process exit code.
-/

namespace GeminiPr

/-- Observable events of one run of the script: `print` calls, the external
commands actually executed, and the HTTP POST issued by `requests.post`.
`printJson` stands for `print(response.json())`, i.e. printing the parsed
JSON object of the response body. -/
inductive Event where
  | print (s : String)
  | printJson (j : List (String × String))
  | gitCheckout (branch : String)
  | gemini (prompt : String)
  | gitAdd
  | gitCommit (msg : String)
  | gitPush (branch : String)
  | httpPost (url : String) (auth : String) (accept : String)
      (body : List (String × String))
  deriving DecidableEq

/-- Outcome of `subprocess.run(['gemini', '--yolo'], ...)`:
the binary is absent from PATH (`FileNotFoundError`) or it ran and
returned the given exit code (`check=True` raises on a nonzero code). -/
inductive GeminiOutcome where
  | notFound
  | exited (code : Nat)
  deriving DecidableEq

/-- The HTTP response to the pull-request POST, already parsed:
`status_code` and the JSON object of the body as a key-value list
(the script only ever reads `response.status_code` and
`response.json()`). -/
structure Response where
  status_code : Nat
  json : List (String × String)
  deriving DecidableEq

/-- One invocation environment: outcomes of the four git subprocesses,
the gemini CLI outcome, `os.environ.get("GITHUB_TOKEN")`, the HTTP
response, and the bytes returned by `os.urandom(4)`. -/
structure World where
  checkoutOk : Bool
  gemini : GeminiOutcome
  addOk : Bool
  commitOk : Bool
  pushOk : Bool
  token : Option String
  resp : Response
  randBytes : List Nat
  deriving DecidableEq

/-- Parsed command line of the script (`argparse`): `prompt` is the
positional argument; `title` is `None` when `--title` was omitted. -/
structure Args where
  prompt : String
  repo : String
  branch : String
  title : Option String
  body : String
  deriving DecidableEq

/-- The argparse defaults of the script for a bare invocation with
just the prompt. -/
def defaultArgs (prompt : String) : Args :=
  { prompt := prompt
  , repo := "https://github.com/maigovannon/buildpacks-abhinasu"
  , branch := "main"
  , title := none
  , body := "PR created by Gemini CLI automation script." }

/-- `args.title if args.title else args.prompt` (line 61): Python string
truthiness, so `None` and the empty string both fall back to the prompt. -/
def prTitle : Option String → String → String
  | none, prompt => prompt
  | some t, prompt => if t.isEmpty then prompt else t

/-- `if not github_token` (line 25): true when the variable is unset
(`None`) or set to the empty string. -/
def tokenFalsy : Option String → Bool
  | none => true
  | some t => t.isEmpty

/-- Lowercase hex digit of a nibble, as produced by Python `bytes.hex()`:
digits `0`-`9` then letters `a`-`f`. -/
def hexDigit (n : Nat) : Char :=
  if n < 10 then Char.ofNat (48 + n) else Char.ofNat (87 + n)

/-- The two lowercase hex digits of one byte. -/
def byteHex (b : Nat) : List Char := [hexDigit (b / 16), hexDigit (b % 16)]

/-- `bytes.hex()`: concatenation of the two-digit hex codes of the bytes. -/
def bytesHex (bs : List Nat) : String := ⟨(bs.map byteHex).flatten⟩

/-- `f"gemini-changes-{os.urandom(4).hex()}"` (line 64), as a function of
the four random bytes. -/
def newBranchName (bs : List Nat) : String :=
  "gemini-changes-" ++ bytesHex bs

/-- `c` is a lowercase hexadecimal digit character `[0-9a-f]`. -/
def isLowerHex (c : Char) : Bool :=
  (decide (48 ≤ c.toNat) && decide (c.toNat ≤ 57)) ||
    (decide (97 ≤ c.toNat) && decide (c.toNat ≤ 102))

/-- `leadMatch pat l` holds when `pat` matches the leading characters of
`l` (used to detect an occurrence of a pattern at the current position,
as Python `str.replace` does while scanning). -/
def leadMatch : List Char → List Char → Bool
  | [], _ => true
  | _ :: _, [] => false
  | p :: ps, c :: cs => p == c && leadMatch ps cs

/-- Left-to-right, non-overlapping replacement of every occurrence of
`pat` by `rep`, the semantics of Python `str.replace` on character lists
(for a nonempty `pat`; the script only ever replaces `"github.com"`). -/
def replaceList (pat rep : List Char) : List Char → List Char
  | [] => []
  | c :: rest =>
    if h : pat ≠ [] ∧ leadMatch pat (c :: rest) then
      rep ++ replaceList pat rep ((c :: rest).drop pat.length)
    else
      c :: replaceList pat rep rest
termination_by l => l.length
decreasing_by
  · have hp : 1 ≤ pat.length := by
      cases pat with
      | nil => exact absurd rfl h.1
      | cons p ps => exact Nat.succ_le_succ (Nat.zero_le _)
    simp only [List.length_drop, List.length_cons]
    omega
  · simp [Nat.lt_succ_self]

/-- `s.replace(pat, rep)` of Python, on `String`. -/
def pyReplace (s pat rep : String) : String :=
  ⟨replaceList pat.data rep.data s.data⟩

/-- `pat in s` of Python: some occurrence of `pat` starts at some
position of `l` (for nonempty `pat`). -/
def hasOccur (pat : List Char) : List Char → Bool
  | [] => pat.isEmpty
  | c :: rest => leadMatch pat (c :: rest) || hasOccur pat rest

/-- The REST endpoint built on line 30:
`repo_url.replace('github.com', 'api.github.com/repos') + "/pulls"`. -/
def apiUrl (repo_url : String) : String :=
  pyReplace repo_url "github.com" "api.github.com/repos" ++ "/pulls"

/-- `run_gemini_cli(prompt)` (lines 8-20): prints the banner, runs the
binary; on `FileNotFoundError` or a nonzero exit code it prints a
diagnostic and calls `exit(1)`.  Returns the events together with
`some code` when `exit(code)` was reached, `none` on normal return. -/
def run_gemini_cli (prompt : String) (g : GeminiOutcome) :
    List Event × Option Nat :=
  let banner := Event.print ("Running Gemini CLI with prompt: " ++ prompt)
  match g with
  | .notFound =>
      ([banner,
        Event.print "Error: \x27gemini\x27 command not found. Make sure the Gemini CLI is installed and in your PATH."],
       some 1)
  | .exited 0 =>
      ([banner, Event.gemini prompt,
        Event.print "Gemini CLI executed successfully."], none)
  | .exited (Nat.succ c) =>
      ([banner, Event.gemini prompt,
        Event.print ("Error executing Gemini CLI: Command \x27[\x27gemini\x27, \x27--yolo\x27]\x27 returned non-zero exit status " ++ toString (c + 1) ++ ".")],
       some 1)

/-- `create_github_pr(repo_url, head_branch, base_branch, title, body)`
(lines 22-50): checks `GITHUB_TOKEN`, builds the API URL by
`repo_url.replace('github.com', 'api.github.com/repos') + "/pulls"`,
POSTs the JSON payload `{title, body, head, base}` with the
`Authorization: token ...` header, then reports the outcome.  A missing
`html_url` key on the 201 path is an uncaught `KeyError` (process exit
code 1). -/
def create_github_pr (repo_url head_branch base_branch title body : String)
    (token : Option String) (resp : Response) : List Event × Option Nat :=
  if tokenFalsy token then
    ([Event.print "Error: GITHUB_TOKEN environment variable not set.",
      Event.print "Please set it to your GitHub Personal Access Token with \x27repo\x27 scope."],
     some 1)
  else
    let tok := token.getD ""
    let api_url := apiUrl repo_url
    let data := [("title", title), ("body", body),
                 ("head", head_branch), ("base", base_branch)]
    let pre :=
      [Event.print ("Creating Pull Request to " ++ repo_url ++ " from \x27" ++ head_branch ++ "\x27 to \x27" ++ base_branch ++ "\x27"),
       Event.httpPost api_url ("token " ++ tok)
         "application/vnd.github.v3+json" data]
    if resp.status_code = 201 then
      let pre2 := pre ++ [Event.print "Pull Request created successfully:"]
      match resp.json.lookup "html_url" with
      | some url => (pre2 ++ [Event.print url], none)
      | none => (pre2, some 1)
    else
      (pre ++ [Event.print ("Error creating Pull Request: " ++ toString resp.status_code),
               Event.printJson resp.json], none)

/-- `main()` (lines 52-83) run on a parsed command line and a `World`:
the five steps in order, each `subprocess.run(..., check=True)` failure
being an uncaught `CalledProcessError` that terminates the process with
exit code 1.  Returns the event trace and the process exit code. -/
def mainRun (args : Args) (w : World) : List Event × Nat :=
  let pr_title := prTitle args.title args.prompt
  let new_branch := newBranchName w.randBytes
  let t0 := [Event.print ("Creating and switching to new branch: " ++ new_branch),
             Event.gitCheckout new_branch]
  if w.checkoutOk then
    match run_gemini_cli args.prompt w.gemini with
    | (gEvents, some c) => (t0 ++ gEvents, c)
    | (gEvents, none) =>
      let t2 := t0 ++ gEvents ++ [Event.print "Staging changes...", Event.gitAdd]
      if w.addOk then
        let t3 := t2 ++ [Event.print "Committing changes...",
                         Event.gitCommit pr_title]
        if w.commitOk then
          let t4 := t3 ++ [Event.print ("Pushing branch " ++ new_branch ++ " to origin..."),
                           Event.gitPush new_branch]
          if w.pushOk then
            match create_github_pr args.repo new_branch args.branch pr_title
                args.body w.token w.resp with
            | (pEvents, some c) => (t4 ++ pEvents, c)
            | (pEvents, none) => (t4 ++ pEvents, 0)
          else (t4, 1)
        else (t3, 1)
      else (t2, 1)
  else (t0, 1)

/-- The events that correspond to external commands or the HTTP request
(as opposed to `print` output). -/
def isCmd : Event → Bool
  | .gitCheckout _ => true
  | .gemini _ => true
  | .gitAdd => true
  | .gitCommit _ => true
  | .gitPush _ => true
  | .httpPost _ _ _ _ => true
  | _ => false

/-- The event of the script's HTTP request (`requests.post`). -/
def isPost : Event → Bool
  | .httpPost _ _ _ _ => true
  | _ => false

/-- Events that contact the network: `git push -u origin ...` talks to
the remote, and `requests.post` talks to the REST API.  The other git
subcommands and the gemini CLI are local. -/
def isNetworkCall : Event → Bool
  | .gitPush _ => true
  | .httpPost _ _ _ _ => true
  | _ => false

/-- The full command chain of a completely successful run, in the order
the script issues the commands. -/
def fullChain (args : Args) (w : World) : List Event :=
  [Event.gitCheckout (newBranchName w.randBytes),
   Event.gemini args.prompt,
   Event.gitAdd,
   Event.gitCommit (prTitle args.title args.prompt),
   Event.gitPush (newBranchName w.randBytes),
   Event.httpPost (apiUrl args.repo) ("token " ++ w.token.getD "")
     "application/vnd.github.v3+json"
     [("title", prTitle args.title args.prompt), ("body", args.body),
      ("head", newBranchName w.randBytes), ("base", args.branch)]]

/-! ## Helper lemmas -/

theorem hexDigit_isLowerHex : ∀ n, n < 16 → isLowerHex (hexDigit n) = true := by
  decide

/-- Explicit character list of the pattern `"github.com"`. -/
def patChars : List Char := ['g', 'i', 't', 'h', 'u', 'b', '.', 'c', 'o', 'm']

/-- Explicit character list of the replacement `"api.github.com/repos"`. -/
def repChars : List Char :=
  ['a', 'p', 'i', '.', 'g', 'i', 't', 'h', 'u', 'b', '.', 'c', 'o', 'm', '/',
   'r', 'e', 'p', 'o', 's']

theorem patChars_eq : "github.com".data = patChars := rfl

theorem repChars_eq : "api.github.com/repos".data = repChars := rfl

theorem leadMatch_self_append (pat l : List Char) :
    leadMatch pat (pat ++ l) = true := by
  induction pat with
  | nil => rfl
  | cons p ps ih => simp [leadMatch, ih]

theorem replaceList_skip (pat rep : List Char) (c : Char) (l : List Char)
    (h : leadMatch pat (c :: l) = false) :
    replaceList pat rep (c :: l) = c :: replaceList pat rep l := by
  rw [replaceList]
  simp [h]

theorem replaceList_occur (pat rep l : List Char) (hp : pat ≠ []) :
    replaceList pat rep (pat ++ l) = rep ++ replaceList pat rep l := by
  cases pat with
  | nil => exact absurd rfl hp
  | cons p ps =>
    have hm := leadMatch_self_append (p :: ps) l
    rw [List.cons_append, replaceList, dif_pos]
    · rw [← List.cons_append, List.drop_left]
    · refine ⟨by simp, ?_⟩
      rw [← List.cons_append]
      exact hm

theorem replaceList_nil (pat rep : List Char) :
    replaceList pat rep [] = [] := by
  rw [replaceList]

theorem replaceList_no_occur (pat rep : List Char) (l : List Char)
    (h : hasOccur pat l = false) :
    replaceList pat rep l = l := by
  induction l with
  | nil => exact replaceList_nil pat rep
  | cons c rest ih =>
    rw [hasOccur] at h
    simp only [Bool.or_eq_false_iff] at h
    rw [replaceList_skip _ _ _ _ h.1, ih h.2]

theorem replaceList_append_no_start (pat rep : List Char) (a r : List Char)
    (h : ∀ i, i < a.length → leadMatch pat ((a ++ r).drop i) = false) :
    replaceList pat rep (a ++ r) = a ++ replaceList pat rep r := by
  induction a with
  | nil => simp
  | cons c a' ih =>
    have h0 := h 0 (by simp)
    simp only [List.drop_zero, List.cons_append] at h0
    have hrec : ∀ i, i < a'.length → leadMatch pat ((a' ++ r).drop i) = false := by
      intro i hi
      have := h (i + 1) (by simp; omega)
      simpa using this
    rw [List.cons_append, replaceList_skip _ _ _ _ h0, ih hrec]
    simp

theorem byteHex_all_lower (b : Nat) (hb : b < 256) :
    ∀ c ∈ byteHex b, isLowerHex c = true := by
  intro c hc
  simp only [byteHex, List.mem_cons, List.not_mem_nil, or_false] at hc
  rcases hc with h | h <;> subst h <;> exact hexDigit_isLowerHex _ (by omega)

theorem bytesHex_all_lower (bs : List Nat) (hb : ∀ b ∈ bs, b < 256) :
    (bytesHex bs).data.all isLowerHex = true := by
  rw [List.all_eq_true]
  have hd : (bytesHex bs).data = (bs.map byteHex).flatten := rfl
  rw [hd]
  intro c hc
  simp only [List.mem_flatten, List.mem_map] at hc
  obtain ⟨l, ⟨b, hbmem, hbeq⟩, hcl⟩ := hc
  subst hbeq
  exact byteHex_all_lower b (hb b hbmem) c hcl

/-! ## Claims -/

/-- C3: for any 4 bytes drawn by `os.urandom(4)`, the generated branch
name is the fixed prefix `gemini-changes-` followed by exactly 8
lowercase hexadecimal characters. -/
theorem branch_name_matches_pattern (bs : List Nat)
    (hlen : bs.length = 4) (hbyte : ∀ b ∈ bs, b < 256) :
    newBranchName bs = "gemini-changes-" ++ bytesHex bs ∧
    (bytesHex bs).length = 8 ∧
    (bytesHex bs).data.all isLowerHex = true := by
  refine ⟨rfl, ?_, bytesHex_all_lower bs hbyte⟩
  rcases bs with _ | ⟨a, _ | ⟨b, _ | ⟨c, _ | ⟨d, _ | ⟨e, tl⟩⟩⟩⟩⟩ <;>
    simp_all [bytesHex, byteHex, String.length]

/-- Witness for C3 at the concrete bytes `[18, 171, 0, 255]`
(branch `gemini-changes-12ab00ff`). -/
theorem branch_name_matches_pattern_witness :
    newBranchName [18, 171, 0, 255] =
      "gemini-changes-" ++ bytesHex [18, 171, 0, 255] ∧
    (bytesHex [18, 171, 0, 255]).length = 8 ∧
    (bytesHex [18, 171, 0, 255]).data.all isLowerHex = true :=
  branch_name_matches_pattern [18, 171, 0, 255] (by decide) (by decide)

/-- C7: when steps 1-4 succeed, the token is set, and the POST returns
HTTP 201 with a JSON body containing `html_url`, the script prints that
URL and exits with code 0. -/
theorem pr_created_prints_url_and_exits_zero
    (args : Args) (w : World) (t url : String)
    (hco : w.checkoutOk = true) (hg : w.gemini = .exited 0)
    (ha : w.addOk = true) (hcm : w.commitOk = true) (hpu : w.pushOk = true)
    (ht : w.token = some t) (hte : t.isEmpty = false)
    (hs : w.resp.status_code = 201)
    (hu : w.resp.json.lookup "html_url" = some url) :
    Event.print url ∈ (mainRun args w).1 ∧ (mainRun args w).2 = 0 := by
  simp [mainRun, run_gemini_cli, create_github_pr, tokenFalsy, hco, hg, ha,
    hcm, hpu, ht, hte, hs, hu]

/-- Witness for C7: a fully successful run against a mocked 201 response
carrying `html_url = "https://example/pr/1"`. -/
theorem pr_created_prints_url_witness :
    Event.print "https://example/pr/1" ∈
      (mainRun (defaultArgs "fix bug")
        ⟨true, .exited 0, true, true, true, some "tok",
         ⟨201, [("html_url", "https://example/pr/1")]⟩, [0, 0, 0, 0]⟩).1 ∧
    (mainRun (defaultArgs "fix bug")
        ⟨true, .exited 0, true, true, true, some "tok",
         ⟨201, [("html_url", "https://example/pr/1")]⟩, [0, 0, 0, 0]⟩).2 = 0 :=
  pr_created_prints_url_and_exits_zero _ _ "tok" "https://example/pr/1"
    rfl rfl rfl rfl rfl rfl rfl rfl rfl

/-- C1: when steps 1-4 succeed, the token is set, and the POST returns a
status other than 201, the script prints the status code and the
response body (as parsed JSON) and exits with code 0. -/
theorem pr_failure_nonfatal_exits_zero
    (args : Args) (w : World) (t : String)
    (hco : w.checkoutOk = true) (hg : w.gemini = .exited 0)
    (ha : w.addOk = true) (hcm : w.commitOk = true) (hpu : w.pushOk = true)
    (ht : w.token = some t) (hte : t.isEmpty = false)
    (hs : w.resp.status_code ≠ 201) :
    Event.print ("Error creating Pull Request: " ++ toString w.resp.status_code)
        ∈ (mainRun args w).1 ∧
    Event.printJson w.resp.json ∈ (mainRun args w).1 ∧
    (mainRun args w).2 = 0 := by
  simp [mainRun, run_gemini_cli, create_github_pr, tokenFalsy, hco, hg, ha,
    hcm, hpu, ht, hte, hs]

/-- Witness for C1: a run whose mocked API answers HTTP 422. -/
theorem pr_failure_nonfatal_witness :
    Event.print "Error creating Pull Request: 422" ∈
      (mainRun (defaultArgs "fix bug")
        ⟨true, .exited 0, true, true, true, some "tok",
         ⟨422, [("message", "Validation Failed")]⟩, [0, 0, 0, 0]⟩).1 ∧
    Event.printJson [("message", "Validation Failed")] ∈
      (mainRun (defaultArgs "fix bug")
        ⟨true, .exited 0, true, true, true, some "tok",
         ⟨422, [("message", "Validation Failed")]⟩, [0, 0, 0, 0]⟩).1 ∧
    (mainRun (defaultArgs "fix bug")
        ⟨true, .exited 0, true, true, true, some "tok",
         ⟨422, [("message", "Validation Failed")]⟩, [0, 0, 0, 0]⟩).2 = 0 :=
  pr_failure_nonfatal_exits_zero _ _ "tok"
    rfl rfl rfl rfl rfl rfl rfl (by decide)

/-- Counterexample to C2 as stated: with `GITHUB_TOKEN` unset and all
git steps succeeding, the run has already issued `git push -u origin ...`
— a network call — before the missing token is detected, so the script
does not exit before attempting any network call.  (It does exit 1, and
it never attempts the HTTP request; see the amended theorem.) -/
theorem token_unset_push_already_sent :
    (mainRun (defaultArgs "fix bug")
      ⟨true, .exited 0, true, true, true, none, ⟨201, []⟩, [0, 0, 0, 0]⟩).2 = 1 ∧
    Event.gitPush "gemini-changes-00000000" ∈
      (mainRun (defaultArgs "fix bug")
        ⟨true, .exited 0, true, true, true, none, ⟨201, []⟩, [0, 0, 0, 0]⟩).1 ∧
    isNetworkCall (Event.gitPush "gemini-changes-00000000") = true ∧
    ¬ (∀ e ∈ (mainRun (defaultArgs "fix bug")
        ⟨true, .exited 0, true, true, true, none, ⟨201, []⟩, [0, 0, 0, 0]⟩).1,
        isNetworkCall e = false) := by
  decide

/-- C2 (amended): with `GITHUB_TOKEN` unset the process always exits
with code 1 and never attempts the HTTP pull-request call; when the
check is reached (steps 1-4 succeeded) the diagnostic naming
`GITHUB_TOKEN` is printed.  The `git push` of step 4, however, has
already contacted the network in that case. -/
theorem token_unset_fatal_no_api_call (args : Args) (w : World)
    (ht : w.token = none) :
    (mainRun args w).2 = 1 ∧
    (∀ e ∈ (mainRun args w).1, isPost e = false) ∧
    (w.checkoutOk = true → w.gemini = .exited 0 → w.addOk = true →
      w.commitOk = true → w.pushOk = true →
      Event.print "Error: GITHUB_TOKEN environment variable not set." ∈
        (mainRun args w).1) := by
  obtain ⟨co, g, ao, cm, pu, tk, rsp, rb⟩ := w
  simp only at ht
  subst ht
  cases co <;> rcases g with _ | (_ | c) <;> cases ao <;> cases cm <;> cases pu <;>
    simp [mainRun, run_gemini_cli, create_github_pr, tokenFalsy, isPost]

/-- Witness for the amended C2 at a concrete run with all git steps
succeeding and the token unset. -/
theorem token_unset_fatal_witness :
    (mainRun (defaultArgs "fix bug")
      ⟨true, .exited 0, true, true, true, none, ⟨201, []⟩, [0, 0, 0, 0]⟩).2 = 1 ∧
    (∀ e ∈ (mainRun (defaultArgs "fix bug")
      ⟨true, .exited 0, true, true, true, none, ⟨201, []⟩, [0, 0, 0, 0]⟩).1,
      isPost e = false) ∧
    (true = true → GeminiOutcome.exited 0 = GeminiOutcome.exited 0 →
      true = true → true = true → true = true →
      Event.print "Error: GITHUB_TOKEN environment variable not set." ∈
        (mainRun (defaultArgs "fix bug")
          ⟨true, .exited 0, true, true, true, none, ⟨201, []⟩, [0, 0, 0, 0]⟩).1) :=
  token_unset_fatal_no_api_call (defaultArgs "fix bug")
    ⟨true, .exited 0, true, true, true, none, ⟨201, []⟩, [0, 0, 0, 0]⟩ rfl

/-- Events of the steps after the CLI invocation: staging, committing,
pushing, or the HTTP request. -/
def isStageOrLater : Event → Bool
  | .gitAdd => true
  | .gitCommit _ => true
  | .gitPush _ => true
  | .httpPost _ _ _ _ => true
  | _ => false

/-- C4: when the branch was created but the gemini binary is absent or
exits nonzero, the script prints the corresponding diagnostic and exits
with code 1 without attempting to stage, commit, push, or POST. -/
theorem gemini_failure_fatal (args : Args) (w : World)
    (hco : w.checkoutOk = true) (hg : w.gemini ≠ .exited 0) :
    (mainRun args w).2 = 1 ∧
    (w.gemini = .notFound →
      Event.print "Error: \x27gemini\x27 command not found. Make sure the Gemini CLI is installed and in your PATH."
        ∈ (mainRun args w).1) ∧
    (∀ c, w.gemini = .exited (c + 1) →
      Event.print ("Error executing Gemini CLI: Command \x27[\x27gemini\x27, \x27--yolo\x27]\x27 returned non-zero exit status " ++ toString (c + 1) ++ ".")
        ∈ (mainRun args w).1) ∧
    (∀ e ∈ (mainRun args w).1, isStageOrLater e = false) := by
  obtain ⟨co, g, ao, cm, pu, tk, rsp, rb⟩ := w
  simp only at hco hg
  subst hco
  rcases g with _ | (_ | c)
  · simp [mainRun, run_gemini_cli, isStageOrLater]
  · exact absurd rfl hg
  · simp [mainRun, run_gemini_cli, isStageOrLater]

/-- Witness for C4: one run whose CLI binary is absent and one whose
binary exits with status 2, both with a successful branch creation. -/
theorem gemini_failure_fatal_witness :
    ((mainRun (defaultArgs "fix bug")
        ⟨true, .notFound, true, true, true, some "tok", ⟨201, []⟩, [0, 0, 0, 0]⟩).2 = 1 ∧
      Event.print "Error: \x27gemini\x27 command not found. Make sure the Gemini CLI is installed and in your PATH."
        ∈ (mainRun (defaultArgs "fix bug")
            ⟨true, .notFound, true, true, true, some "tok", ⟨201, []⟩, [0, 0, 0, 0]⟩).1) ∧
    ((mainRun (defaultArgs "fix bug")
        ⟨true, .exited 2, true, true, true, some "tok", ⟨201, []⟩, [0, 0, 0, 0]⟩).2 = 1 ∧
      ∀ e ∈ (mainRun (defaultArgs "fix bug")
          ⟨true, .exited 2, true, true, true, some "tok", ⟨201, []⟩, [0, 0, 0, 0]⟩).1,
        isStageOrLater e = false) :=
  ⟨⟨(gemini_failure_fatal (defaultArgs "fix bug")
        ⟨true, .notFound, true, true, true, some "tok", ⟨201, []⟩, [0, 0, 0, 0]⟩
        rfl (by decide)).1,
    (gemini_failure_fatal (defaultArgs "fix bug")
        ⟨true, .notFound, true, true, true, some "tok", ⟨201, []⟩, [0, 0, 0, 0]⟩
        rfl (by decide)).2.1 rfl⟩,
   ⟨(gemini_failure_fatal (defaultArgs "fix bug")
        ⟨true, .exited 2, true, true, true, some "tok", ⟨201, []⟩, [0, 0, 0, 0]⟩
        rfl (by decide)).1,
    (gemini_failure_fatal (defaultArgs "fix bug")
        ⟨true, .exited 2, true, true, true, some "tok", ⟨201, []⟩, [0, 0, 0, 0]⟩
        rfl (by decide)).2.2.2⟩⟩

/-- Every `gitCommit` event of a run carries the computed PR title as the
commit message, and every `httpPost` event carries the payload
`{title, body, head, base}` built from it. -/
theorem mainRun_commit_post (args : Args) (w : World) :
    (∀ m, Event.gitCommit m ∈ (mainRun args w).1 →
      m = prTitle args.title args.prompt) ∧
    (∀ u a ac d, Event.httpPost u a ac d ∈ (mainRun args w).1 →
      d = [("title", prTitle args.title args.prompt), ("body", args.body),
           ("head", newBranchName w.randBytes), ("base", args.branch)]) := by
  obtain ⟨co, g, ao, cm, pu, tk, rsp, rb⟩ := w
  cases co <;> rcases g with _ | (_ | c) <;> cases ao <;> cases cm <;> cases pu <;>
    cases htk : tokenFalsy tk <;>
    rcases hlk : rsp.json.lookup "html_url" with _ | url <;>
    by_cases hst : rsp.status_code = 201 <;>
    simp [mainRun, run_gemini_cli, create_github_pr, htk, hst, hlk]

/-- C8: when `--title` is omitted (`args.title = none`), the title — and
hence the commit message and the PR payload's title field — equals the
prompt string. -/
theorem default_title_is_prompt (args : Args) (w : World)
    (ht : args.title = none) :
    prTitle args.title args.prompt = args.prompt ∧
    (∀ m, Event.gitCommit m ∈ (mainRun args w).1 → m = args.prompt) ∧
    (∀ u a ac d, Event.httpPost u a ac d ∈ (mainRun args w).1 →
      d.lookup "title" = some args.prompt) := by
  have h := mainRun_commit_post args w
  have hpt : prTitle args.title args.prompt = args.prompt := by
    rw [ht]
    rfl
  rw [hpt] at h
  refine ⟨hpt, h.1, ?_⟩
  intro u a ac d hd
  have hdata := h.2 u a ac d hd
  subst hdata
  simp [List.lookup]

/-- Witness for C8: omitted `--title` on a concrete successful run. -/
theorem default_title_is_prompt_witness :
    prTitle (defaultArgs "fix bug").title (defaultArgs "fix bug").prompt =
      (defaultArgs "fix bug").prompt ∧
    (∀ m, Event.gitCommit m ∈
        (mainRun (defaultArgs "fix bug")
          ⟨true, .exited 0, true, true, true, some "tok", ⟨201, []⟩,
           [0, 0, 0, 0]⟩).1 → m = (defaultArgs "fix bug").prompt) ∧
    (∀ u a ac d, Event.httpPost u a ac d ∈
        (mainRun (defaultArgs "fix bug")
          ⟨true, .exited 0, true, true, true, some "tok", ⟨201, []⟩,
           [0, 0, 0, 0]⟩).1 →
      d.lookup "title" = some (defaultArgs "fix bug").prompt) :=
  default_title_is_prompt (defaultArgs "fix bug")
    ⟨true, .exited 0, true, true, true, some "tok", ⟨201, []⟩, [0, 0, 0, 0]⟩ rfl

/-- C9: when `--title` is supplied as the empty string, the falsy check
on line 61 falls back to the prompt: the commit message and the PR
payload's title field equal the prompt, not the empty string. -/
theorem empty_title_falls_back_to_prompt (args : Args) (w : World)
    (ht : args.title = some "") :
    prTitle args.title args.prompt = args.prompt ∧
    (∀ m, Event.gitCommit m ∈ (mainRun args w).1 → m = args.prompt) ∧
    (∀ u a ac d, Event.httpPost u a ac d ∈ (mainRun args w).1 →
      d.lookup "title" = some args.prompt) := by
  have h := mainRun_commit_post args w
  have hpt : prTitle args.title args.prompt = args.prompt := by
    rw [ht]
    rfl
  rw [hpt] at h
  refine ⟨hpt, h.1, ?_⟩
  intro u a ac d hd
  have hdata := h.2 u a ac d hd
  subst hdata
  simp [List.lookup]

/-- Witness for C9: `--title ""` on a concrete successful run. -/
theorem empty_title_falls_back_witness :
    prTitle (some "") "fix bug" = "fix bug" ∧
    (∀ m, Event.gitCommit m ∈
        (mainRun ⟨"fix bug", "https://github.com/o/r", "main", some "", "b"⟩
          ⟨true, .exited 0, true, true, true, some "tok", ⟨201, []⟩,
           [0, 0, 0, 0]⟩).1 → m = "fix bug") ∧
    (∀ u a ac d, Event.httpPost u a ac d ∈
        (mainRun ⟨"fix bug", "https://github.com/o/r", "main", some "", "b"⟩
          ⟨true, .exited 0, true, true, true, some "tok", ⟨201, []⟩,
           [0, 0, 0, 0]⟩).1 →
      d.lookup "title" = some "fix bug") :=
  empty_title_falls_back_to_prompt
    ⟨"fix bug", "https://github.com/o/r", "main", some "", "b"⟩
    ⟨true, .exited 0, true, true, true, some "tok", ⟨201, []⟩, [0, 0, 0, 0]⟩ rfl

/-- No occurrence of `github.com` starts inside the scheme part
`https://` of a URL, whatever follows it. -/
theorem no_start_in_https (r : List Char) :
    ∀ i, i < ("https://".data).length →
      leadMatch patChars (("https://".data ++ r).drop i) = false := by
  intro i hi
  have h8 : ("https://".data).length = 8 := rfl
  rw [h8] at hi
  interval_cases i <;> rfl

/-- Replacing `github.com` in `https://github.com/<own>` when `<own>`
contains no further occurrence rewrites exactly the host segment. -/
theorem replaceList_github_url (own : List Char)
    (hown : hasOccur patChars own = false) :
    replaceList patChars repChars ("https://github.com/".data ++ own) =
      "https://api.github.com/repos/".data ++ own := by
  have h1 : "https://github.com/".data ++ own =
      "https://".data ++ (patChars ++ ('/' :: own)) := by
    have h : "https://github.com/".data = "https://".data ++ patChars ++ ['/'] := by
      decide
    rw [h]
    simp
  rw [h1,
    replaceList_append_no_start _ _ _ _ (no_start_in_https (patChars ++ ('/' :: own))),
    replaceList_occur _ _ _ (by decide),
    replaceList_skip patChars repChars '/' own rfl,
    replaceList_no_occur _ _ _ hown]
  have h2 : "https://api.github.com/repos/".data =
      "https://".data ++ repChars ++ ['/'] := by decide
  rw [h2]
  simp

/-- The endpoint of line 30 on a well-formed repository URL: the host
`github.com` is rewritten to `api.github.com/repos` and `/pulls` is
appended. -/
theorem apiUrl_rewrites_host (own : String)
    (hown : hasOccur patChars own.data = false) :
    apiUrl ("https://github.com/" ++ own) =
      "https://api.github.com/repos/" ++ own ++ "/pulls" := by
  unfold apiUrl
  congr 1
  apply String.ext
  show replaceList "github.com".data "api.github.com/repos".data
      ("https://github.com/" ++ own).data =
    ("https://api.github.com/repos/" ++ own).data
  rw [patChars_eq, repChars_eq, String.data_append, String.data_append,
    replaceList_github_url own.data hown]

/-- C6: on every run that reaches step 5 with a set token and a
repository URL whose owner/path part contains no further `github.com`,
exactly one HTTP request is issued: a POST to the endpoint obtained by
rewriting the web host into the API host and appending `/pulls`, with
the `token` authorization header and exactly the JSON payload
`{title, body, head, base}`. -/
theorem pr_post_request_structure (args : Args) (w : World) (t own : String)
    (hco : w.checkoutOk = true) (hg : w.gemini = .exited 0)
    (ha : w.addOk = true) (hcm : w.commitOk = true) (hpu : w.pushOk = true)
    (ht : w.token = some t) (hte : t.isEmpty = false)
    (hrepo : args.repo = "https://github.com/" ++ own)
    (hown : hasOccur patChars own.data = false) :
    (mainRun args w).1.filter isPost =
      [Event.httpPost ("https://api.github.com/repos/" ++ own ++ "/pulls")
        ("token " ++ t) "application/vnd.github.v3+json"
        [("title", prTitle args.title args.prompt), ("body", args.body),
         ("head", newBranchName w.randBytes), ("base", args.branch)]] := by
  by_cases hst : w.resp.status_code = 201 <;>
    rcases hlk : w.resp.json.lookup "html_url" with _ | url <;>
    simp [mainRun, run_gemini_cli, create_github_pr, tokenFalsy, isPost,
      hco, hg, ha, hcm, hpu, ht, hte, hst, hlk, hrepo,
      apiUrl_rewrites_host own hown]

/-- Witness for C6 at the default repository URL
`https://github.com/maigovannon/buildpacks-abhinasu`. -/
theorem pr_post_request_structure_witness :
    (mainRun (defaultArgs "fix bug")
      ⟨true, .exited 0, true, true, true, some "tok", ⟨201, []⟩,
       [0, 0, 0, 0]⟩).1.filter isPost =
      [Event.httpPost
        ("https://api.github.com/repos/" ++ "maigovannon/buildpacks-abhinasu" ++ "/pulls")
        ("token " ++ "tok") "application/vnd.github.v3+json"
        [("title", prTitle (defaultArgs "fix bug").title (defaultArgs "fix bug").prompt),
         ("body", (defaultArgs "fix bug").body),
         ("head", newBranchName [0, 0, 0, 0]),
         ("base", (defaultArgs "fix bug").branch)]] :=
  pr_post_request_structure (defaultArgs "fix bug")
    ⟨true, .exited 0, true, true, true, some "tok", ⟨201, []⟩, [0, 0, 0, 0]⟩
    "tok" "maigovannon/buildpacks-abhinasu"
    rfl rfl rfl rfl rfl rfl rfl rfl (by decide)

/-- Scanning a URL whose path ends in a second `github.com` occurrence:
both occurrences are replaced (the replacement semantics of line 30 is a
global `str.replace`, not a host-segment rewrite). -/
theorem replaceList_two_occur (own : List Char)
    (hsp : ∀ i, i < own.length →
      leadMatch patChars ((own ++ ('/' :: patChars)).drop i) = false) :
    replaceList patChars repChars
        ("https://github.com/".data ++ (own ++ ('/' :: patChars))) =
      "https://api.github.com/repos/".data ++ (own ++ ('/' :: repChars)) := by
  have h1 : "https://github.com/".data ++ (own ++ ('/' :: patChars)) =
      "https://".data ++ (patChars ++ ('/' :: (own ++ ('/' :: patChars)))) := by
    have h : "https://github.com/".data = "https://".data ++ patChars ++ ['/'] := by
      decide
    rw [h]
    simp
  have h2 : replaceList patChars repChars patChars = repChars := by
    have h := replaceList_occur patChars repChars [] (by decide)
    simpa [replaceList_nil] using h
  rw [h1,
    replaceList_append_no_start _ _ _ _ (no_start_in_https _),
    replaceList_occur _ _ _ (by decide),
    replaceList_skip patChars repChars '/' (own ++ ('/' :: patChars)) rfl,
    replaceList_append_no_start _ _ _ _ hsp,
    replaceList_skip patChars repChars '/' patChars rfl,
    h2]
  have h3 : "https://api.github.com/repos/".data =
      "https://".data ++ repChars ++ ['/'] := by decide
  rw [h3]
  simp

/-- C10: the endpoint construction of line 30 rewrites every occurrence
of `github.com`, not only the host: for any repository URL of the form
`https://github.com/<own>/github.com` (with no further occurrence inside
`<own>`), the occurrence in the path portion is rewritten to
`api.github.com/repos` as well. -/
theorem replace_rewrites_every_occurrence (own : String)
    (hsp : ∀ i, i < own.data.length →
      leadMatch patChars ((own.data ++ ('/' :: patChars)).drop i) = false) :
    apiUrl ("https://github.com/" ++ own ++ "/github.com") =
      "https://api.github.com/repos/" ++ own ++ "/api.github.com/repos" ++ "/pulls" := by
  unfold apiUrl
  congr 1
  apply String.ext
  show replaceList "github.com".data "api.github.com/repos".data
      ("https://github.com/" ++ own ++ "/github.com").data =
    ("https://api.github.com/repos/" ++ own ++ "/api.github.com/repos").data
  rw [patChars_eq, repChars_eq, String.data_append, String.data_append,
    String.data_append, String.data_append]
  have hl : "https://github.com/".data ++ own.data ++ "/github.com".data =
      "https://github.com/".data ++ (own.data ++ ('/' :: patChars)) := by
    have h : "/github.com".data = '/' :: patChars := rfl
    rw [h]
    simp
  rw [hl, replaceList_two_occur own.data hsp]
  have hr : "/api.github.com/repos".data = '/' :: repChars := rfl
  rw [hr]
  simp

/-- Witness for C10 at the repository URL
`https://github.com/someorg/tools/github.com`: both occurrences are
rewritten in the endpoint. -/
theorem replace_rewrites_every_occurrence_witness :
    apiUrl ("https://github.com/" ++ "someorg/tools" ++ "/github.com") =
      "https://api.github.com/repos/" ++ "someorg/tools" ++
        "/api.github.com/repos" ++ "/pulls" :=
  replace_rewrites_every_occurrence "someorg/tools" (by decide)

set_option maxHeartbeats 1600000 in
/-- C5: the commands of any run form a prefix of the fixed chain
checkout, gemini, add, commit, push, POST (so the order is fixed and
nothing is retried or rolled back); a failure in steps 1-4 stops the
chain right there with exit code 1; a non-201 POST outcome in step 5
leaves the whole chain (push included) in place and the process exits
with code 0. -/
theorem steps_linear_chain (args : Args) (w : World) :
    (mainRun args w).1.filter isCmd =
      (fullChain args w).take ((mainRun args w).1.filter isCmd).length ∧
    (w.checkoutOk = false →
      (mainRun args w).2 = 1 ∧
      (mainRun args w).1.filter isCmd = (fullChain args w).take 1) ∧
    (w.checkoutOk = true → w.gemini = .notFound →
      (mainRun args w).2 = 1 ∧
      (mainRun args w).1.filter isCmd = (fullChain args w).take 1) ∧
    (∀ c, w.checkoutOk = true → w.gemini = .exited (c + 1) →
      (mainRun args w).2 = 1 ∧
      (mainRun args w).1.filter isCmd = (fullChain args w).take 2) ∧
    (w.checkoutOk = true → w.gemini = .exited 0 → w.addOk = false →
      (mainRun args w).2 = 1 ∧
      (mainRun args w).1.filter isCmd = (fullChain args w).take 3) ∧
    (w.checkoutOk = true → w.gemini = .exited 0 → w.addOk = true →
      w.commitOk = false →
      (mainRun args w).2 = 1 ∧
      (mainRun args w).1.filter isCmd = (fullChain args w).take 4) ∧
    (w.checkoutOk = true → w.gemini = .exited 0 → w.addOk = true →
      w.commitOk = true → w.pushOk = false →
      (mainRun args w).2 = 1 ∧
      (mainRun args w).1.filter isCmd = (fullChain args w).take 5) ∧
    (w.checkoutOk = true → w.gemini = .exited 0 → w.addOk = true →
      w.commitOk = true → w.pushOk = true → tokenFalsy w.token = false →
      w.resp.status_code ≠ 201 →
      (mainRun args w).2 = 0 ∧
      (mainRun args w).1.filter isCmd = fullChain args w) := by
  obtain ⟨co, g, ao, cm, pu, tk, rsp, rb⟩ := w
  cases co <;> rcases g with _ | (_ | c) <;> cases ao <;> cases cm <;> cases pu <;>
    first
      | (simp [mainRun, run_gemini_cli, fullChain, isCmd]; done)
      | (cases htk : tokenFalsy tk <;>
          first
            | (simp [mainRun, run_gemini_cli, create_github_pr, fullChain,
                isCmd, htk]; done)
            | (by_cases hst : rsp.status_code = 201 <;>
                first
                  | (simp [mainRun, run_gemini_cli, create_github_pr,
                      fullChain, isCmd, htk, hst]; done)
                  | (rcases hlk : rsp.json.lookup "html_url" with _ | url <;>
                      simp [mainRun, run_gemini_cli, create_github_pr,
                        fullChain, isCmd, htk, hst, hlk])))

/-- Witness for C5: a run whose checkout fails stops after step 1 with
exit code 1, and a run whose POST is answered 422 keeps the pushed
branch and exits 0. -/
theorem steps_linear_chain_witness :
    ((mainRun (defaultArgs "fix bug")
        ⟨false, .exited 0, true, true, true, some "tok", ⟨201, []⟩,
         [0, 0, 0, 0]⟩).2 = 1 ∧
      (mainRun (defaultArgs "fix bug")
        ⟨false, .exited 0, true, true, true, some "tok", ⟨201, []⟩,
         [0, 0, 0, 0]⟩).1.filter isCmd =
        (fullChain (defaultArgs "fix bug")
          ⟨false, .exited 0, true, true, true, some "tok", ⟨201, []⟩,
           [0, 0, 0, 0]⟩).take 1) ∧
    ((mainRun (defaultArgs "fix bug")
        ⟨true, .exited 0, true, true, true, some "tok",
         ⟨422, [("message", "Validation Failed")]⟩, [0, 0, 0, 0]⟩).2 = 0 ∧
      (mainRun (defaultArgs "fix bug")
        ⟨true, .exited 0, true, true, true, some "tok",
         ⟨422, [("message", "Validation Failed")]⟩, [0, 0, 0, 0]⟩).1.filter isCmd =
        fullChain (defaultArgs "fix bug")
          ⟨true, .exited 0, true, true, true, some "tok",
           ⟨422, [("message", "Validation Failed")]⟩, [0, 0, 0, 0]⟩) :=
  ⟨(steps_linear_chain (defaultArgs "fix bug")
      ⟨false, .exited 0, true, true, true, some "tok", ⟨201, []⟩,
       [0, 0, 0, 0]⟩).2.1 rfl,
   (steps_linear_chain (defaultArgs "fix bug")
      ⟨true, .exited 0, true, true, true, some "tok",
       ⟨422, [("message", "Validation Failed")]⟩,
       [0, 0, 0, 0]⟩).2.2.2.2.2.2.2 rfl rfl rfl rfl rfl rfl (by decide)⟩

end GeminiPr
